import Mathlib

/-!
Shallow embedding of `src/cpp/src/common/tablet.cc` (Apache TsFile C++ client,
`storage::Tablet`): a fixed-capacity columnar row batch with one timestamp
column, one typed value column per schema entry, and one validity bitmap per
column.  Machine pointers that may be `NULL` are embedded as `Option`; the
typed arrays are embedded as Lean lists whose length is the allocated element
count.  Writing past the end of an allocated array is undefined behavior in
the C++ source; in this embedding such a write leaves the list unchanged
(`List.set` out of bounds is the identity), and theorems about cell contents
state their row bounds explicitly.
-/

set_option autoImplicit false

namespace TabletSpec

/-- The closed set of primitive data types carried by a tablet column
(`common::TSDataType`; the enum itself is declared outside `src/`). -/
inductive TSDataType where
  | BOOLEAN
  | INT32
  | INT64
  | FLOAT
  | DOUBLE
deriving DecidableEq, Repr

/-- A runtime value passed to `Tablet::add_value<T>`.  Each C++ template
instantiation (`bool`, `int32_t`, `int64_t`, `float`, `double`) becomes one
constructor; floating-point payloads are carried as uninterpreted bit
patterns, since the tablet only stores them and never computes with them. -/
inductive Value where
  | vBool (x : Bool)
  | vInt32 (x : Int)
  | vInt64 (x : Int)
  | vFloat (bits : Nat)
  | vDouble (bits : Nat)
deriving DecidableEq, Repr

/-- `GetDataTypeFromTemplateType<T>()`: the data-type tag of the template
argument a value was passed at (declared outside `src/`; the mapping from the
five instantiated C++ types to the enum is forced by the instantiation list at
the bottom of `tablet.cc`). -/
def valueType : Value → TSDataType
  | Value.vBool _ => TSDataType.BOOLEAN
  | Value.vInt32 _ => TSDataType.INT32
  | Value.vInt64 _ => TSDataType.INT64
  | Value.vFloat _ => TSDataType.FLOAT
  | Value.vDouble _ => TSDataType.DOUBLE

/-- One schema entry (`common::MeasurementSchema`, declared outside `src/`):
a measurement name and its declared data type, the two fields `tablet.cc`
reads (`measurement_name_`, `data_type_`). -/
structure MeasurementSchema where
  measurement_name_ : String
  data_type_ : TSDataType
deriving DecidableEq, Repr

/-- Error codes from `common/utils/errno_define.h` (not under `src/`).
Modelled from the spec: distinct integer result values, `E_OK = 0` for
success.  `tablet.cc` only needs the four constants named here. -/
def E_OK : Int := 0

/-- See `E_OK`. -/
def E_INVALID_ARG : Int := 1

/-- See `E_OK`. -/
def E_OUT_OF_RANGE : Int := 2

/-- See `E_OK`. -/
def E_TYPE_NOT_MATCH : Int := 3

/-- The `storage::Tablet` state.  `schema_vec_` and `max_row_num_` are set by
the constructor; `timestamps_`, `value_matrix_` and `bitmaps_` are the three
heap pointers (`NULL` = `none`); `schema_map_` is the `std::map` from
measurement name to column index, embedded as an insertion-ordered
association list with unique keys. -/
structure Tablet where
  max_row_num_ : Nat
  schema_vec_ : List MeasurementSchema
  schema_map_ : List (String × Nat)
  timestamps_ : Option (List Int)
  value_matrix_ : Option (List (List Value))
  bitmaps_ : Option (List (List Bool))
deriving DecidableEq, Repr

/-- Modelled from the spec: the `Tablet` constructor (`tablet.h` is not under
`src/`) stores the schema sequence and the row capacity and starts with all
three storage pointers `NULL` and the name index empty; `init` allocates. -/
def Tablet.create (schema : List MeasurementSchema) (cap : Nat) : Tablet :=
  { max_row_num_ := cap
    schema_vec_ := schema
    schema_map_ := []
    timestamps_ := none
    value_matrix_ := none
    bitmaps_ := none }

/-- `std::map::insert`: succeeds (and appends the binding) exactly when the
key is not already present; returns the possibly-extended map and the
`ins_res.second` flag. -/
def mapInsert (m : List (String × Nat)) (k : String) (v : Nat) :
    List (String × Nat) × Bool :=
  if m.any (fun p => p.1 = k) then (m, false) else (m ++ [(k, v)], true)

/-- `std::map::find`, as used by the name form of `add_value`: the column
index bound to `k`, or `none` when `k` is absent. -/
def mapFind (m : List (String × Nat)) (k : String) : Option Nat :=
  (m.find? (fun p => p.1 = k)).map (fun p => p.2)

/-- The name-index construction loop of `Tablet::init`: inserts
`(measurement_name_, c)` for each schema entry in order, stopping at the
first failed insertion (duplicate name).  Returns the map as left behind by
the loop (entries inserted before the failure remain) and whether every
insertion succeeded. -/
def buildSchemaMap :
    List MeasurementSchema → Nat → List (String × Nat) →
    List (String × Nat) × Bool
  | [], _, m => (m, true)
  | s :: rest, c, m =>
      let r := mapInsert m s.measurement_name_ c
      if r.2 then buildSchemaMap rest (c + 1) r.1 else (r.1, false)

/-- `Tablet::init`.  `ASSERT` compiles away in release builds and is embedded
as a no-op.  `malloc` returns uninitialized memory, so the fresh timestamp
array and value arrays are filled with caller-chosen junk (`junkTs`,
`junkVal`): every theorem below holds for all junk.  The `BitMap` container
is not under `src/`; per the call `bitmaps_[c].init(max_row_num_, true)` and
the spec (a bit-vector of length `capacity`, all bits initially clear) a
fresh bitmap is `List.replicate max_row_num_ false`.  Returns the mutated
tablet and the result code. -/
def Tablet.init (t : Tablet) (junkTs : Int) (junkVal : TSDataType → Value) :
    Tablet × Int :=
  let t1 : Tablet :=
    { t with timestamps_ := some (List.replicate t.max_row_num_ junkTs) }
  let r := buildSchemaMap t1.schema_vec_ 0 t1.schema_map_
  let t2 : Tablet := { t1 with schema_map_ := r.1 }
  if r.2 then
    let t3 : Tablet :=
      { t2 with
        value_matrix_ := some (t2.schema_vec_.map
          (fun s => List.replicate t2.max_row_num_ (junkVal s.data_type_)))
        bitmaps_ := some (t2.schema_vec_.map
          (fun _ => List.replicate t2.max_row_num_ false)) }
    (t3, E_OK)
  else
    (t2, E_INVALID_ARG)

/-- The deallocation events `Tablet::destroy` can perform, recorded so that
theorems can talk about what a call frees. -/
inductive FreeAction where
  | freeTimestamps
  | freeValueMatrix
  | freeBitmaps
deriving DecidableEq, Repr

/-- `Tablet::destroy`: frees `timestamps_` and `value_matrix_` and nulls
those two fields, and `delete[]`s `bitmaps_` when non-null — without nulling
`bitmaps_`.  Returns the mutated tablet and the list of deallocations
performed. -/
def Tablet.destroy (t : Tablet) : Tablet × List FreeAction :=
  let p1 : Tablet × List FreeAction :=
    if t.timestamps_.isSome then
      ({ t with timestamps_ := none }, [FreeAction.freeTimestamps])
    else (t, [])
  let p2 : Tablet × List FreeAction :=
    if p1.1.value_matrix_.isSome then
      ({ p1.1 with value_matrix_ := none },
        p1.2 ++ [FreeAction.freeValueMatrix])
    else p1
  if p2.1.bitmaps_.isSome then (p2.1, p2.2 ++ [FreeAction.freeBitmaps])
  else p2

/-- `Tablet::add_timestamp`: rejects `row_index >= max_row_num_` with
`E_OUT_OF_RANGE`, otherwise stores the timestamp.  (`timestamps_` is
asserted non-null; calling before `init` is undefined behavior in the source
and leaves the embedded state unchanged.) -/
def Tablet.add_timestamp (t : Tablet) (row_index : Nat) (timestamp : Int) :
    Tablet × Int :=
  if t.max_row_num_ ≤ row_index then (t, E_OUT_OF_RANGE)
  else
    ({ t with timestamps_ :=
        t.timestamps_.map (fun ts => ts.set row_index timestamp) }, E_OK)

/-- Default `MeasurementSchema` used only to state `List.getD` lookups whose
index is already known to be in bounds. -/
def dfltSchema : MeasurementSchema :=
  { measurement_name_ := "", data_type_ := TSDataType.BOOLEAN }

/-- Write `v` at row `r` of column `c` of a column matrix. -/
def matrixSet {α : Type} (m : List (List α)) (c r : Nat) (v : α) :
    List (List α) :=
  m.set c ((m.getD c []).set r v)

/-- `Tablet::add_value<T>(row_index, schema_index, val)`, the index form:
`E_OUT_OF_RANGE` when the column index is not below the schema size;
`E_TYPE_NOT_MATCH` when the value's type tag differs from the column's
declared type; otherwise stores the value and sets the bitmap bit (`BitMap::
set`, outside `src/`, marks one row non-null).  No row bound is checked:
a row index at or beyond `max_row_num_` is an out-of-bounds access in the
source (undefined behavior), embedded as leaving the arrays unchanged. -/
def Tablet.add_value (t : Tablet) (row_index schema_index : Nat) (val : Value) :
    Tablet × Int :=
  if t.schema_vec_.length ≤ schema_index then (t, E_OUT_OF_RANGE)
  else
    let schema := t.schema_vec_.getD schema_index dfltSchema
    if valueType val ≠ schema.data_type_ then (t, E_TYPE_NOT_MATCH)
    else
      ({ t with
          value_matrix_ :=
            t.value_matrix_.map (fun vm => matrixSet vm schema_index row_index val)
          bitmaps_ :=
            t.bitmaps_.map (fun bm => matrixSet bm schema_index row_index true) },
        E_OK)

/-- `Tablet::add_value<T>(row_index, measurement_name, val)`, the name form:
resolves the name through `schema_map_`, failing with `E_INVALID_ARG` when
absent, and otherwise delegates to the index form. -/
def Tablet.add_value_by_name (t : Tablet) (row_index : Nat)
    (measurement_name : String) (val : Value) : Tablet × Int :=
  match mapFind t.schema_map_ measurement_name with
  | none => (t, E_INVALID_ARG)
  | some idx => t.add_value row_index idx val

/-- Observation: the stored value of cell `(r, c)`, when that cell of the
value matrix is allocated. -/
def Tablet.cellValue (t : Tablet) (r c : Nat) : Option Value :=
  t.value_matrix_.bind (fun vm => (vm.get? c).bind (fun col => col.get? r))

/-- Observation: the bitmap bit of cell `(r, c)`, when allocated. -/
def Tablet.cellBit (t : Tablet) (r c : Nat) : Option Bool :=
  t.bitmaps_.bind (fun bm => (bm.get? c).bind (fun col => col.get? r))

/-- Observation: the timestamp of row `r`, when allocated. -/
def Tablet.timestampAt (t : Tablet) (r : Nat) : Option Int :=
  t.timestamps_.bind (fun ts => ts.get? r)

/-- Well-formedness of an initialized tablet, as a decidable check: all three
storage pointers allocated, the timestamp array of length `max_row_num_`,
one value column and one bitmap per schema entry, each of length
`max_row_num_`. -/
def Tablet.wfb (t : Tablet) : Bool :=
  match t.timestamps_, t.value_matrix_, t.bitmaps_ with
  | some ts, some vm, some bm =>
      ts.length == t.max_row_num_ &&
      vm.length == t.schema_vec_.length &&
      bm.length == t.schema_vec_.length &&
      vm.all (fun col => col.length == t.max_row_num_) &&
      bm.all (fun col => col.length == t.max_row_num_)
  | _, _, _ => false

/-- A junk filler for witnesses: one arbitrary value of each type. -/
def junkV : TSDataType → Value
  | TSDataType.BOOLEAN => Value.vBool false
  | TSDataType.INT32 => Value.vInt32 0
  | TSDataType.INT64 => Value.vInt64 0
  | TSDataType.FLOAT => Value.vFloat 0
  | TSDataType.DOUBLE => Value.vDouble 0

/-- A concrete one-column schema used by witnesses. -/
def schemaT1 : List MeasurementSchema :=
  [{ measurement_name_ := "t1", data_type_ := TSDataType.INT64 }]

/-- A concrete initialized tablet (capacity 2, one `int64` column "t1") used
by witnesses. -/
def tabT1 : Tablet := ((Tablet.create schemaT1 2).init 0 junkV).1

/-- A concrete schema with a duplicated measurement name. -/
def schemaDup : List MeasurementSchema :=
  [{ measurement_name_ := "a", data_type_ := TSDataType.INT32 },
   { measurement_name_ := "a", data_type_ := TSDataType.INT32 }]

/-- The spec scenario (capacity 2, one `int64` column "t1") after
`SetTimestamp(0, 1000)` and `SetValue(0, "t1", 42)`. -/
def scenarioAfterWrites : Tablet :=
  ((((Tablet.create schemaT1 2).init 0 junkV).1.add_timestamp 0
    1000).1.add_value_by_name 0 "t1" (Value.vInt64 42)).1

/-- The scenario's third call, `SetValue(5, "t1", 1)`: a row index beyond the
capacity of 2. -/
def scenarioThirdCall : Tablet × Int :=
  scenarioAfterWrites.add_value_by_name 5 "t1" (Value.vInt64 1)

/-! ## Helper lemmas -/

/-- Unpacking `Tablet.wfb`. -/
theorem wfb_spec (t : Tablet) (h : t.wfb = true) :
    ∃ ts vm bm,
      t.timestamps_ = some ts ∧ t.value_matrix_ = some vm ∧
      t.bitmaps_ = some bm ∧
      ts.length = t.max_row_num_ ∧ vm.length = t.schema_vec_.length ∧
      bm.length = t.schema_vec_.length ∧
      (∀ col ∈ vm, col.length = t.max_row_num_) ∧
      (∀ col ∈ bm, col.length = t.max_row_num_) := by
  unfold Tablet.wfb at h
  cases hts : t.timestamps_ with
  | none => rw [hts] at h; cases h
  | some ts =>
    cases hvm : t.value_matrix_ with
    | none => rw [hts, hvm] at h; cases h
    | some vm =>
      cases hbm : t.bitmaps_ with
      | none => rw [hts, hvm, hbm] at h; cases h
      | some bm =>
        rw [hts, hvm, hbm] at h
        simp only [Bool.and_eq_true, beq_iff_eq, List.all_eq_true] at h
        exact ⟨ts, vm, bm, rfl, rfl, rfl, h.1.1.1.1, h.1.1.1.2, h.1.1.2,
          fun col hc => by simpa using h.1.2 col hc,
          fun col hc => by simpa using h.2 col hc⟩

/-- Packing `Tablet.wfb`. -/
theorem wfb_intro (t : Tablet) (ts : List Int) (vm : List (List Value))
    (bm : List (List Bool))
    (hts : t.timestamps_ = some ts) (hvm : t.value_matrix_ = some vm)
    (hbm : t.bitmaps_ = some bm)
    (hlts : ts.length = t.max_row_num_)
    (hlvm : vm.length = t.schema_vec_.length)
    (hlbm : bm.length = t.schema_vec_.length)
    (hcolv : ∀ col ∈ vm, col.length = t.max_row_num_)
    (hcolb : ∀ col ∈ bm, col.length = t.max_row_num_) : t.wfb = true := by
  unfold Tablet.wfb
  rw [hts, hvm, hbm]
  simp only [Bool.and_eq_true, beq_iff_eq, List.all_eq_true]
  exact ⟨⟨⟨⟨hlts, hlvm⟩, hlbm⟩,
    fun col hc => by simpa using hcolv col hc⟩,
    fun col hc => by simpa using hcolb col hc⟩

/-- In-bounds columns of a matrix belong to it. -/
theorem getD_mem {α : Type} (m : List (List α)) (c : Nat) (hc : c < m.length) :
    m.getD c [] ∈ m := by
  rw [List.getD_eq_getElem m [] hc]
  exact List.getElem_mem hc

/-- `matrixSet` keeps the number of columns. -/
theorem matrixSet_length {α : Type} (m : List (List α)) (c r : Nat) (v : α) :
    (matrixSet m c r v).length = m.length := by
  unfold matrixSet
  exact List.length_set m c ((m.getD c []).set r v)

/-- Every column of `matrixSet m c r v` is a column of `m` or the updated
column. -/
theorem matrixSet_mem {α : Type} (m : List (List α)) (c r : Nat) (v : α)
    (col : List α) (h : col ∈ matrixSet m c r v) :
    col ∈ m ∨ col = (m.getD c []).set r v := by
  unfold matrixSet at h
  exact List.mem_or_eq_of_mem_set h

/-- Reading back the cell written by `matrixSet`, in bounds. -/
theorem matrixSet_get {α : Type} (m : List (List α)) (c r : Nat) (v : α)
    (hc : c < m.length) (hr : r < (m.getD c []).length) :
    ((matrixSet m c r v).get? c).bind (fun col => col.get? r) = some v := by
  unfold matrixSet
  rw [List.get?_set_eq_of_lt _ hc]
  simp only [Option.some_bind]
  exact List.get?_set_eq_of_lt v hr

/-- The success path of `Tablet::add_value` (index form): in-bounds column,
matching type.  Returns `E_OK`, stores the value, sets the bitmap bit, and
preserves well-formedness and the immutable fields. -/
theorem add_value_store (t : Tablet) (r c : Nat) (v : Value)
    (hwf : t.wfb = true) (hc : c < t.schema_vec_.length)
    (hr : r < t.max_row_num_)
    (hty : valueType v = (t.schema_vec_.getD c dfltSchema).data_type_) :
    (t.add_value r c v).2 = E_OK ∧
    (t.add_value r c v).1.cellValue r c = some v ∧
    (t.add_value r c v).1.cellBit r c = some true ∧
    (t.add_value r c v).1.wfb = true ∧
    (t.add_value r c v).1.max_row_num_ = t.max_row_num_ ∧
    (t.add_value r c v).1.schema_vec_ = t.schema_vec_ := by
  obtain ⟨ts, vm, bm, hts, hvm, hbm, hlts, hlvm, hlbm, hcolv, hcolb⟩ :=
    wfb_spec t hwf
  have hnot : ¬ (t.schema_vec_.length ≤ c) := Nat.not_le.mpr hc
  have hcvm : c < vm.length := hlvm ▸ hc
  have hcbm : c < bm.length := hlbm ▸ hc
  have hrvm : r < (vm.getD c []).length := by
    rw [hcolv (vm.getD c []) (getD_mem vm c hcvm)]; exact hr
  have hrbm : r < (bm.getD c []).length := by
    rw [hcolb (bm.getD c []) (getD_mem bm c hcbm)]; exact hr
  unfold Tablet.add_value
  simp only [if_neg hnot, hty, ne_eq, not_true_eq_false, if_neg,
    ite_false, not_false_eq_true]
  refine ⟨trivial, ?_, ?_, ?_, trivial, trivial⟩
  · unfold Tablet.cellValue
    simp only [hvm, Option.map_some, Option.some_bind]
    exact matrixSet_get vm c r v hcvm hrvm
  · unfold Tablet.cellBit
    simp only [hbm, Option.map_some, Option.some_bind]
    exact matrixSet_get bm c r true hcbm hrbm
  · refine wfb_intro _ ts (matrixSet vm c r v) (matrixSet bm c r true)
      (by simp [hts]) (by simp [hvm]) (by simp [hbm]) hlts
      (by rw [matrixSet_length]; exact hlvm)
      (by rw [matrixSet_length]; exact hlbm) ?_ ?_
    · intro col hcol
      rcases matrixSet_mem vm c r v col hcol with h | h
      · exact hcolv col h
      · rw [h, List.length_set]
        exact hcolv (vm.getD c []) (getD_mem vm c hcvm)
    · intro col hcol
      rcases matrixSet_mem bm c r true col hcol with h | h
      · exact hcolb col h
      · rw [h, List.length_set]
        exact hcolb (bm.getD c []) (getD_mem bm c hcbm)

/-! ## C5 -/

/-- C5: `Tablet::add_value` (index form) with a column index at or beyond the
schema size returns `E_OUT_OF_RANGE` and leaves the whole tablet — in
particular every column array and every bitmap — unchanged. -/
theorem add_value_column_out_of_range (t : Tablet) (r c : Nat) (v : Value)
    (hc : t.schema_vec_.length ≤ c) :
    t.add_value r c v = (t, E_OUT_OF_RANGE) := by
  unfold Tablet.add_value
  simp [hc]

/-- C5 witness: on a concrete one-column tablet, column index 1 is rejected
with no state change. -/
theorem add_value_column_out_of_range_witness :
    tabT1.add_value 0 1 (Value.vInt64 7) = (tabT1, E_OUT_OF_RANGE) :=
  add_value_column_out_of_range tabT1 0 1 (Value.vInt64 7) (by decide)

/-! ## C6 -/

/-- C6: the name form of `Tablet::add_value` behaves exactly as the index
form at the column index the name resolves to through `schema_map_`, and
fails with `E_INVALID_ARG` (unknown column) leaving the tablet unchanged
when the name is absent. -/
theorem add_value_by_name_matches_index_form (t : Tablet) (r : Nat)
    (name : String) (v : Value) :
    (∀ idx, mapFind t.schema_map_ name = some idx →
      t.add_value_by_name r name v = t.add_value r idx v) ∧
    (mapFind t.schema_map_ name = none →
      t.add_value_by_name r name v = (t, E_INVALID_ARG)) := by
  constructor
  · intro idx hidx
    unfold Tablet.add_value_by_name
    rw [hidx]
  · intro habs
    unfold Tablet.add_value_by_name
    rw [habs]

/-- C6 witness: on a concrete tablet, the name "t1" resolves to column 0 and
the two forms agree; the absent name "zz" fails with `E_INVALID_ARG`. -/
theorem add_value_by_name_matches_index_form_witness :
    (tabT1.add_value_by_name 0 "t1" (Value.vInt64 42)
      = tabT1.add_value 0 0 (Value.vInt64 42)) ∧
    (tabT1.add_value_by_name 0 "zz" (Value.vInt64 42)
      = (tabT1, E_INVALID_ARG)) :=
  ⟨(add_value_by_name_matches_index_form tabT1 0 "t1" (Value.vInt64 42)).1 0
      (by decide),
   (add_value_by_name_matches_index_form tabT1 0 "zz" (Value.vInt64 42)).2
      (by decide)⟩

/-- If the name-index construction loop succeeds, the schema's measurement
names are pairwise distinct and none of them was already a key of the
starting map. -/
theorem buildSchemaMap_success_nodup :
    ∀ (schema : List MeasurementSchema) (c : Nat) (m : List (String × Nat)),
      (buildSchemaMap schema c m).2 = true →
      (schema.map (fun s => s.measurement_name_)).Nodup ∧
      ∀ s ∈ schema, m.any (fun p => p.1 = s.measurement_name_) = false := by
  intro schema
  induction schema with
  | nil => intro c m _; simp
  | cons s rest ih =>
    intro c m h
    by_cases hin : m.any (fun p => p.1 = s.measurement_name_) = true
    · exfalso
      unfold buildSchemaMap mapInsert at h
      rw [if_pos hin] at h
      simp at h
    · have hin' : m.any (fun p => p.1 = s.measurement_name_) = false :=
        Bool.not_eq_true _ ▸ eq_false_of_ne_true hin
      have hrec : (buildSchemaMap rest (c + 1)
          (m ++ [(s.measurement_name_, c)])).2 = true := by
        unfold buildSchemaMap mapInsert at h
        rw [if_neg hin] at h
        simpa using h
      obtain ⟨hnd, hall⟩ := ih (c + 1) (m ++ [(s.measurement_name_, c)]) hrec
      have hnotin : ∀ s2 ∈ rest, s2.measurement_name_ ≠ s.measurement_name_ := by
        intro s2 hs2 heq
        have := hall s2 hs2
        rw [List.any_append] at this
        simp [heq] at this
      constructor
      · rw [List.map_cons, List.nodup_cons]
        refine ⟨fun hmem => ?_, hnd⟩
        obtain ⟨s2, hs2, heq⟩ := List.mem_map.mp hmem
        exact hnotin s2 hs2 heq
      · intro s2 hs2
        rcases List.mem_cons.mp hs2 with h2 | h2
        · rw [h2]; exact hin'
        · have := hall s2 h2
          rw [List.any_append] at this
          exact Bool.or_eq_false_iff.mp this |>.1

/-- A duplicated measurement name makes the name-index loop fail. -/
theorem buildSchemaMap_fails_of_dup (schema : List MeasurementSchema)
    (hdup : ¬ (schema.map (fun s => s.measurement_name_)).Nodup) :
    (buildSchemaMap schema 0 []).2 = false := by
  by_contra h
  exact hdup (buildSchemaMap_success_nodup schema 0 []
    (Bool.not_eq_false _ ▸ h)).1

/-- The state `Tablet::init` leaves behind when the name index builds
without a duplicate. -/
theorem init_success_state (schema : List MeasurementSchema) (cap : Nat)
    (junkTs : Int) (junkVal : TSDataType → Value)
    (h : (buildSchemaMap schema 0 []).2 = true) :
    (Tablet.create schema cap).init junkTs junkVal =
      ({ max_row_num_ := cap
         schema_vec_ := schema
         schema_map_ := (buildSchemaMap schema 0 []).1
         timestamps_ := some (List.replicate cap junkTs)
         value_matrix_ := some (schema.map
           (fun s => List.replicate cap (junkVal s.data_type_)))
         bitmaps_ := some (schema.map
           (fun _ => List.replicate cap false)) }, E_OK) := by
  unfold Tablet.init Tablet.create
  simp [h]

/-- The state `Tablet::init` leaves behind when the name index hits a
duplicate: the result code is `E_INVALID_ARG`, yet the timestamp array is
already allocated and the partially built name index remains. -/
theorem init_failure_state (schema : List MeasurementSchema) (cap : Nat)
    (junkTs : Int) (junkVal : TSDataType → Value)
    (h : (buildSchemaMap schema 0 []).2 = false) :
    (Tablet.create schema cap).init junkTs junkVal =
      ({ max_row_num_ := cap
         schema_vec_ := schema
         schema_map_ := (buildSchemaMap schema 0 []).1
         timestamps_ := some (List.replicate cap junkTs)
         value_matrix_ := none
         bitmaps_ := none }, E_INVALID_ARG) := by
  unfold Tablet.init Tablet.create
  simp [h]

/-! ## C1 -/

/-- C1: on a well-formed tablet, for an in-bounds cell, `Tablet::add_value`
(index form) succeeds exactly when the value's runtime type equals the
column's declared type; on success it stores the value at `row_index` and
sets the bitmap bit, and on a type mismatch it returns `E_TYPE_NOT_MATCH`
leaving the tablet (column arrays and bitmaps included) unchanged. -/
theorem add_value_success_iff_type_match (t : Tablet) (r c : Nat) (v : Value)
    (hwf : t.wfb = true) (hc : c < t.schema_vec_.length)
    (hr : r < t.max_row_num_) :
    ((t.add_value r c v).2 = E_OK ↔
      valueType v = (t.schema_vec_.getD c dfltSchema).data_type_) ∧
    (valueType v = (t.schema_vec_.getD c dfltSchema).data_type_ →
      (t.add_value r c v).1.cellValue r c = some v ∧
      (t.add_value r c v).1.cellBit r c = some true) ∧
    (valueType v ≠ (t.schema_vec_.getD c dfltSchema).data_type_ →
      t.add_value r c v = (t, E_TYPE_NOT_MATCH)) := by
  have hnot : ¬ (t.schema_vec_.length ≤ c) := Nat.not_le.mpr hc
  by_cases hty : valueType v = (t.schema_vec_.getD c dfltSchema).data_type_
  · obtain ⟨hok, hcell, hbit, _, _, _⟩ := add_value_store t r c v hwf hc hr hty
    exact ⟨by simp [hok, hty], fun _ => ⟨hcell, hbit⟩, fun h => absurd hty h⟩
  · have hmis : t.add_value r c v = (t, E_TYPE_NOT_MATCH) := by
      unfold Tablet.add_value
      simp only [if_neg hnot]
      rw [if_pos hty]
    refine ⟨?_, fun h => absurd h hty, fun _ => hmis⟩
    rw [hmis]
    simp only [iff_iff_implies_and_implies]
    constructor
    · intro h; exact absurd h (by decide)
    · intro h; exact absurd h hty

/-- C1 witness: on the concrete tablet, cell (0, 0) of the `int64` column
accepts an `int64` and the equivalence holds. -/
theorem add_value_success_iff_type_match_witness :
    ((tabT1.add_value 0 0 (Value.vInt64 42)).2 = E_OK ↔
      valueType (Value.vInt64 42)
        = (tabT1.schema_vec_.getD 0 dfltSchema).data_type_) ∧
    (valueType (Value.vInt64 42)
        = (tabT1.schema_vec_.getD 0 dfltSchema).data_type_ →
      (tabT1.add_value 0 0 (Value.vInt64 42)).1.cellValue 0 0
          = some (Value.vInt64 42) ∧
      (tabT1.add_value 0 0 (Value.vInt64 42)).1.cellBit 0 0 = some true) ∧
    (valueType (Value.vInt64 42)
        ≠ (tabT1.schema_vec_.getD 0 dfltSchema).data_type_ →
      tabT1.add_value 0 0 (Value.vInt64 42) = (tabT1, E_TYPE_NOT_MATCH)) :=
  add_value_success_iff_type_match tabT1 0 0 (Value.vInt64 42)
    (by decide) (by decide) (by decide)

/-! ## C4 -/

/-- C4: `Tablet::add_timestamp` fails with `E_OUT_OF_RANGE` and leaves the
tablet unchanged when the row index reaches the capacity; below the capacity
it succeeds and overwrites the slot, so writing the same row twice leaves
the second timestamp. -/
theorem add_timestamp_bounds_and_overwrite (t : Tablet) (r : Nat)
    (v v2 : Int) (hwf : t.wfb = true) :
    (t.max_row_num_ ≤ r → t.add_timestamp r v = (t, E_OUT_OF_RANGE)) ∧
    (r < t.max_row_num_ →
      (t.add_timestamp r v).2 = E_OK ∧
      (t.add_timestamp r v).1.timestampAt r = some v ∧
      ((t.add_timestamp r v).1.add_timestamp r v2).1.timestampAt r
        = some v2) := by
  obtain ⟨ts, vm, bm, hts, hvm, hbm, hlts, _, _, _, _⟩ := wfb_spec t hwf
  constructor
  · intro hge
    unfold Tablet.add_timestamp
    rw [if_pos hge]
  · intro hlt
    have hnot : ¬ (t.max_row_num_ ≤ r) := Nat.not_le.mpr hlt
    have hrts : r < ts.length := hlts ▸ hlt
    unfold Tablet.add_timestamp
    simp only [if_neg hnot]
    refine ⟨trivial, ?_, ?_⟩
    · unfold Tablet.timestampAt
      simp only [hts, Option.map_some, Option.some_bind]
      exact List.get?_set_eq_of_lt v hrts
    · unfold Tablet.timestampAt
      simp only [hts, Option.map_some, Option.some_bind]
      exact List.get?_set_eq_of_lt v2 (by rw [List.length_set]; exact hrts)

/-- C4 witness: on the concrete tablet of capacity 2, row 2 is rejected and
row 0, written twice, holds the second timestamp. -/
theorem add_timestamp_bounds_and_overwrite_witness :
    (tabT1.add_timestamp 2 1000 = (tabT1, E_OUT_OF_RANGE)) ∧
    ((tabT1.add_timestamp 0 1000).2 = E_OK ∧
      (tabT1.add_timestamp 0 1000).1.timestampAt 0 = some 1000 ∧
      ((tabT1.add_timestamp 0 1000).1.add_timestamp 0 2000).1.timestampAt 0
        = some 2000) :=
  ⟨(add_timestamp_bounds_and_overwrite tabT1 2 1000 2000 (by decide)).1
      (by decide),
   (add_timestamp_bounds_and_overwrite tabT1 0 1000 2000 (by decide)).2
      (by decide)⟩

/-! ## C8 -/

/-- C8: on a well-formed tablet, writing a valid cell twice with values of
the declared type leaves exactly the second value visible with the bitmap
bit set, and already after the first write the bitmap reports non-null. -/
theorem add_value_overwrite_keeps_last (t : Tablet) (r c : Nat)
    (v1 v2 : Value) (hwf : t.wfb = true) (hr : r < t.max_row_num_)
    (hc : c < t.schema_vec_.length)
    (h1 : valueType v1 = (t.schema_vec_.getD c dfltSchema).data_type_)
    (h2 : valueType v2 = (t.schema_vec_.getD c dfltSchema).data_type_) :
    ((t.add_value r c v1).1.cellBit r c = some true) ∧
    (((t.add_value r c v1).1.add_value r c v2).1.cellValue r c = some v2) ∧
    (((t.add_value r c v1).1.add_value r c v2).1.cellBit r c = some true) := by
  obtain ⟨_, _, hbit1, hwf1, hmax1, hsch1⟩ :=
    add_value_store t r c v1 hwf hc hr h1
  obtain ⟨_, hcell2, hbit2, _, _, _⟩ :=
    add_value_store (t.add_value r c v1).1 r c v2 hwf1
      (by rw [hsch1]; exact hc) (by rw [hmax1]; exact hr)
      (by rw [hsch1]; exact h2)
  exact ⟨hbit1, hcell2, hbit2⟩

/-- C8 witness: cell (0, 0) of the concrete tablet written with 7 then 42
holds 42 and reports non-null. -/
theorem add_value_overwrite_keeps_last_witness :
    ((tabT1.add_value 0 0 (Value.vInt64 7)).1.cellBit 0 0 = some true) ∧
    (((tabT1.add_value 0 0 (Value.vInt64 7)).1.add_value 0 0
        (Value.vInt64 42)).1.cellValue 0 0 = some (Value.vInt64 42)) ∧
    (((tabT1.add_value 0 0 (Value.vInt64 7)).1.add_value 0 0
        (Value.vInt64 42)).1.cellBit 0 0 = some true) :=
  add_value_overwrite_keeps_last tabT1 0 0 (Value.vInt64 7) (Value.vInt64 42)
    (by decide) (by decide) (by decide) (by decide) (by decide)

/-! ## C9 -/

/-- C9: `Tablet::destroy` nulls `timestamps_` and `value_matrix_` but leaves
`bitmaps_` as it was, so a second `destroy` performs no deallocation for the
timestamp array or the value matrix yet `delete[]`s `bitmaps_` a second
time. -/
theorem destroy_leaves_bitmaps_dangling (t : Tablet) :
    (t.destroy).1.timestamps_ = none ∧
    (t.destroy).1.value_matrix_ = none ∧
    (t.destroy).1.bitmaps_ = t.bitmaps_ ∧
    (t.bitmaps_.isSome = true →
      FreeAction.freeBitmaps ∈ (t.destroy).2 ∧
      ((t.destroy).1.destroy).2 = [FreeAction.freeBitmaps]) := by
  unfold Tablet.destroy
  cases hts : t.timestamps_ <;> cases hvm : t.value_matrix_ <;>
    cases hbm : t.bitmaps_ <;> simp [hts, hvm, hbm]

/-- C9 witness: a fully initialized one-column tablet, destroyed twice. -/
theorem destroy_leaves_bitmaps_dangling_witness :
    ((tabT1.destroy).1.bitmaps_ = tabT1.bitmaps_) ∧
    (((tabT1.destroy).1.destroy).2 = [FreeAction.freeBitmaps]) :=
  ⟨(destroy_leaves_bitmaps_dangling tabT1).2.2.1,
   ((destroy_leaves_bitmaps_dangling tabT1).2.2.2 (by decide)).2⟩

/-! ## C3 -/

/-- C3 counterexample: on a concrete duplicated schema, `Tablet::init`
returns `E_INVALID_ARG`, yet the timestamp array remains allocated and the
name index holds the entry inserted before the duplicate — observable state
is established, contrary to the claim. -/
theorem init_duplicate_counterexample :
    ((Tablet.create schemaDup 2).init 0 junkV).2 = E_INVALID_ARG ∧
    ((Tablet.create schemaDup 2).init 0 junkV).1.timestamps_
      = some [0, 0] ∧
    ((Tablet.create schemaDup 2).init 0 junkV).1.schema_map_
      = [("a", 0)] := by decide

/-- C3 (amended): a duplicated measurement name makes `Tablet::init` fail
with `E_INVALID_ARG` and the value arrays and bitmaps are not allocated, but
construction partially succeeds: the timestamp array has already been
allocated when the failure is detected. -/
theorem init_duplicate_fails_with_partial_state
    (schema : List MeasurementSchema) (cap : Nat) (junkTs : Int)
    (junkVal : TSDataType → Value)
    (hdup : ¬ (schema.map (fun s => s.measurement_name_)).Nodup) :
    ((Tablet.create schema cap).init junkTs junkVal).2 = E_INVALID_ARG ∧
    ((Tablet.create schema cap).init junkTs junkVal).1.value_matrix_
      = none ∧
    ((Tablet.create schema cap).init junkTs junkVal).1.bitmaps_ = none ∧
    ((Tablet.create schema cap).init junkTs junkVal).1.timestamps_
      = some (List.replicate cap junkTs) := by
  rw [init_failure_state schema cap junkTs junkVal
    (buildSchemaMap_fails_of_dup schema hdup)]
  exact ⟨rfl, rfl, rfl, rfl⟩

/-- C3 witness: the amended statement at the concrete duplicated schema. -/
theorem init_duplicate_fails_with_partial_state_witness :
    ((Tablet.create schemaDup 2).init 0 junkV).2 = E_INVALID_ARG ∧
    ((Tablet.create schemaDup 2).init 0 junkV).1.value_matrix_ = none ∧
    ((Tablet.create schemaDup 2).init 0 junkV).1.bitmaps_ = none ∧
    ((Tablet.create schemaDup 2).init 0 junkV).1.timestamps_
      = some (List.replicate 2 0) :=
  init_duplicate_fails_with_partial_state schemaDup 2 0 junkV (by decide)

/-! ## C7 -/

/-- C7: when `Tablet::init` succeeds, the timestamp array has length
`capacity`, there is one value column and one bitmap per schema entry, each
of length `capacity`, and every bitmap bit of every column reads back clear
(null) before any write. -/
theorem init_fresh_arrays_and_clear_bitmaps (schema : List MeasurementSchema)
    (cap : Nat) (junkTs : Int) (junkVal : TSDataType → Value)
    (h : ((Tablet.create schema cap).init junkTs junkVal).2 = E_OK) :
    (∃ ts, ((Tablet.create schema cap).init junkTs junkVal).1.timestamps_
        = some ts ∧ ts.length = cap) ∧
    (∃ vm, ((Tablet.create schema cap).init junkTs junkVal).1.value_matrix_
        = some vm ∧ vm.length = schema.length ∧
        ∀ col ∈ vm, col.length = cap) ∧
    (∃ bm, ((Tablet.create schema cap).init junkTs junkVal).1.bitmaps_
        = some bm ∧ bm.length = schema.length ∧
        ∀ col ∈ bm, col.length = cap) ∧
    (∀ r c, r < cap → c < schema.length →
      ((Tablet.create schema cap).init junkTs junkVal).1.cellBit r c
        = some false) := by
  by_cases hb : (buildSchemaMap schema 0 []).2 = true
  · rw [init_success_state schema cap junkTs junkVal hb]
    refine ⟨⟨_, rfl, List.length_replicate cap junkTs⟩,
      ⟨_, rfl, List.length_map _ _, ?_⟩,
      ⟨_, rfl, List.length_map _ _, ?_⟩, ?_⟩
    · intro col hcol
      obtain ⟨s, _, hs⟩ := List.mem_map.mp hcol
      rw [← hs]
      exact List.length_replicate cap _
    · intro col hcol
      obtain ⟨s, _, hs⟩ := List.mem_map.mp hcol
      rw [← hs]
      exact List.length_replicate cap _
    · intro r c hr hc
      unfold Tablet.cellBit
      simp [List.get?_map, List.get?_eq_get hc, List.get?_eq_getElem?,
        List.getElem?_replicate, hr, hc]
  · exfalso
    rw [init_failure_state schema cap junkTs junkVal
      (eq_false_of_ne_true hb)] at h
    exact absurd (show E_INVALID_ARG = E_OK from h) (by decide)

/-- C7 witness: the fresh concrete tablet has both bits of its single
column clear. -/
theorem init_fresh_arrays_and_clear_bitmaps_witness :
    tabT1.cellBit 0 0 = some false ∧ tabT1.cellBit 1 0 = some false :=
  ⟨(init_fresh_arrays_and_clear_bitmaps schemaT1 2 0 junkV
      (by decide)).2.2.2 0 0 (by decide) (by decide),
   (init_fresh_arrays_and_clear_bitmaps schemaT1 2 0 junkV
      (by decide)).2.2.2 1 0 (by decide) (by decide)⟩

/-! ## C10 -/

/-- C10: the duplicate-name failure of `Tablet::init` and the unknown-name
failure of the name form of `Tablet::add_value` return the very same error
code, `E_INVALID_ARG`: the two error classes are indistinguishable from the
returned value. -/
theorem duplicate_and_unknown_same_error_code
    (schema : List MeasurementSchema) (cap : Nat) (junkTs : Int)
    (junkVal : TSDataType → Value) (t : Tablet) (r : Nat) (name : String)
    (v : Value)
    (hdup : ¬ (schema.map (fun s => s.measurement_name_)).Nodup)
    (habs : mapFind t.schema_map_ name = none) :
    ((Tablet.create schema cap).init junkTs junkVal).2 = E_INVALID_ARG ∧
    (t.add_value_by_name r name v).2 = E_INVALID_ARG ∧
    ((Tablet.create schema cap).init junkTs junkVal).2
      = (t.add_value_by_name r name v).2 := by
  have h1 : ((Tablet.create schema cap).init junkTs junkVal).2
      = E_INVALID_ARG := by
    rw [init_failure_state schema cap junkTs junkVal
      (buildSchemaMap_fails_of_dup schema hdup)]
  have h2 : (t.add_value_by_name r name v).2 = E_INVALID_ARG := by
    unfold Tablet.add_value_by_name
    rw [habs]
  exact ⟨h1, h2, h1.trans h2.symm⟩

/-- C10 witness: the concrete duplicated schema and the concrete tablet
asked for the absent name "zz" yield the same code. -/
theorem duplicate_and_unknown_same_error_code_witness :
    ((Tablet.create schemaDup 2).init 0 junkV).2 = E_INVALID_ARG ∧
    (tabT1.add_value_by_name 0 "zz" (Value.vInt64 1)).2 = E_INVALID_ARG ∧
    ((Tablet.create schemaDup 2).init 0 junkV).2
      = (tabT1.add_value_by_name 0 "zz" (Value.vInt64 1)).2 :=
  duplicate_and_unknown_same_error_code schemaDup 2 0 junkV tabT1 0 "zz"
    (Value.vInt64 1) (by decide) (by decide)

/-! ## C2 -/

/-- C2 counterexample: the scenario's third call, `SetValue(5, "t1", 1)` on
a capacity-2 tablet, does not fail: `Tablet::add_value` checks no row bound,
so the call returns `E_OK`, not an out-of-range or unknown-column error. -/
theorem scenario_third_call_counterexample :
    scenarioThirdCall.2 = E_OK ∧
    scenarioThirdCall.2 ≠ E_OUT_OF_RANGE ∧
    scenarioThirdCall.2 ≠ E_INVALID_ARG ∧
    scenarioThirdCall.2 ≠ E_TYPE_NOT_MATCH := by decide

/-- C2 (amended): the third call returns `E_OK` — no row-bounds check is
performed at the value level, and the row-5 write lands beyond the
allocated arrays (undefined behavior in the C++ source, embedded as leaving
them unchanged) — while cell (0, t1) still holds 42 with its bitmap bit
set. -/
theorem scenario_third_call_amended :
    scenarioThirdCall.2 = E_OK ∧
    scenarioThirdCall.1.cellValue 0 0 = some (Value.vInt64 42) ∧
    scenarioThirdCall.1.cellBit 0 0 = some true := by decide

end TabletSpec
